import Mathlib

/-!
# Verification of the scent-cone core (geo.ts, scentEnvelope.ts)

Shallow embedding over `ℝ` of the two library modules that form the
scent-dispersion / confidence core of the repository:

* namespace `Geo` embeds `src/lib/geo.ts` (Geodesy & Cone Kernel,
  Track Analytics);
* namespace `SE` embeds `src/lib/scentEnvelope.ts` (Envelope &
  Confidence Model).

Modelling conventions:

* JavaScript numbers are modelled as real numbers `ℝ`.
* `Math.atan2`, the JS remainder operator `%` (truncated toward zero),
  `Math.trunc` and `Math.round` (round half toward positive infinity,
  i.e. `⌊x + 1/2⌋`) are modelled by `atan2`, `jsMod`, `jsTrunc` and
  `jsRound` below.
* ISO timestamp strings are represented by their `Date.parse` value in
  epoch milliseconds (a real number); this captures exactly the inputs
  whose timestamps parse to valid dates.
* The optional environment fields of `EnvelopeInputs` are represented
  with their defaults already applied, matching the default-merging
  block at the top of `computeScentEnvelope`.
* `Math.round` returns a JS number that is always an integer; we give
  `confidence_score` the type `ℤ`, which records that integrality.
-/

noncomputable section

/-- JS `Math.trunc` (round toward zero), as used by the JS `%` operator. -/
def jsTrunc (x : ℝ) : ℤ :=
  if 0 ≤ x then ⌊x⌋ else ⌈x⌉

/-- The JS remainder operator `a % n` for real operands:
`a - n * Math.trunc (a / n)` (sign follows the dividend). -/
def jsMod (a n : ℝ) : ℝ :=
  a - n * (jsTrunc (a / n) : ℝ)

/-- JS `Math.round`: round half toward positive infinity. -/
def jsRound (x : ℝ) : ℤ :=
  ⌊x + 1 / 2⌋

/-- JS `Math.atan2 y x` (signed zero and NaN inputs aside). -/
def atan2 (y x : ℝ) : ℝ :=
  if 0 < x then Real.arctan (y / x)
  else if x < 0 then
    (if 0 ≤ y then Real.arctan (y / x) + Real.pi
     else Real.arctan (y / x) - Real.pi)
  else
    (if 0 < y then Real.pi / 2
     else if y < 0 then -(Real.pi / 2)
     else 0)

namespace Geo

/-- `LatLng` from `lib/types.ts`. -/
structure LatLng where
  lat : ℝ
  lng : ℝ
deriving DecidableEq

/-- `Stability` from `lib/types.ts`: `"low" | "medium" | "high"`. -/
inductive Stability where
  | low
  | medium
  | high
deriving DecidableEq

/-- `ConeSettings` from `lib/types.ts`. -/
structure ConeSettings where
  timeHorizonHours : ℝ
  spreadDeg : ℝ
  stability : Stability

/-- `TrackMetrics` from `lib/types.ts`. `laidTrackTransitions` is a
count (a JS number that is always a nonnegative integer), modelled `ℕ`. -/
structure TrackMetrics where
  minSeparationM : ℝ
  avgSeparationM : ℝ
  maxSeparationM : ℝ
  dogInsideConePct : ℝ
  laidTrackTransitions : ℕ
deriving DecidableEq

def EARTH_RADIUS_M : ℝ := 6371000

/-- `normalizeDeg(deg) = ((deg % 360) + 360) % 360` (geo.ts line 12). -/
def normalizeDeg (deg : ℝ) : ℝ :=
  jsMod (jsMod deg 360 + 360) 360

/-- `windFromToDeg` (geo.ts line 16). -/
def windFromToDeg (windFromDeg : ℝ) : ℝ :=
  normalizeDeg (windFromDeg + 180)

/-- `toRad` (geo.ts line 20). -/
def toRad (deg : ℝ) : ℝ :=
  deg * Real.pi / 180

/-- `toDeg` (geo.ts line 24). -/
def toDeg (rad : ℝ) : ℝ :=
  rad * 180 / Real.pi

/-- `destinationPoint` (geo.ts lines 28-45).  Note: this version performs
no normalization of the output longitude. -/
def destinationPoint (origin : LatLng) (bearingDeg distanceM : ℝ) : LatLng :=
  let br := toRad bearingDeg
  let d := distanceM / EARTH_RADIUS_M
  let lat1 := toRad origin.lat
  let lon1 := toRad origin.lng
  let lat2 := Real.arcsin
    (Real.sin lat1 * Real.cos d + Real.cos lat1 * Real.sin d * Real.cos br)
  let lon2 := lon1 +
    atan2 (Real.sin br * Real.sin d * Real.cos lat1)
      (Real.cos d - Real.sin lat1 * Real.sin lat2)
  { lat := toDeg lat2, lng := toDeg lon2 }

/-- `haversineMeters` (geo.ts lines 47-55). -/
def haversineMeters (a b : LatLng) : ℝ :=
  let dLat := toRad (b.lat - a.lat)
  let dLon := toRad (b.lng - a.lng)
  let lat1 := toRad a.lat
  let lat2 := toRad b.lat
  let h := Real.sin (dLat / 2) ^ 2 +
    Real.cos lat1 * Real.cos lat2 * Real.sin (dLon / 2) ^ 2
  2 * EARTH_RADIUS_M * Real.arcsin (Real.sqrt h)

/-- `stabilityFactor` (geo.ts lines 57-61). -/
def stabilityFactor (stability : Stability) : ℝ :=
  if stability = Stability.low then 1.25
  else if stability = Stability.high then 0.75
  else 1

/-- `spreadHalfDeg` (geo.ts lines 63-65). -/
def spreadHalfDeg (settings : ConeSettings) : ℝ :=
  settings.spreadDeg * stabilityFactor settings.stability / 2

/-- `estimateScentDistanceMeters` (geo.ts lines 67-74). -/
def estimateScentDistanceMeters (windSpeedKmh minutes : ℝ) (stability : Stability) : ℝ :=
  let base := windSpeedKmh * 1000 * (minutes / 60) * 0.28 * stabilityFactor stability
  max 20 base

/-- `buildConePolygon` (geo.ts lines 76-95): apex, then the arc produced
by the loop `for i in 0..=steps` with `steps = 22`, then the apex again. -/
def buildConePolygon (lkp : LatLng) (windFromDeg windSpeed : ℝ)
    (settings : ConeSettings) : List LatLng :=
  let windToDeg := windFromToDeg windFromDeg
  let speedKmh := windSpeed
  let lengthM := max 250 (speedKmh * 1000 * settings.timeHorizonHours * 0.28)
  let halfSpread := spreadHalfDeg settings
  let steps : ℕ := 22
  lkp ::
    ((List.range (steps + 1)).map (fun (i : ℕ) =>
      destinationPoint lkp
        (windToDeg - halfSpread + ((i : ℝ) / (steps : ℝ)) * halfSpread * 2)
        lengthM)
    ++ [lkp])

/-- JS `Number.EPSILON = 2⁻⁵²`. -/
def EPSILON : ℝ := (2 : ℝ) ^ (-52 : ℤ)

/-- `pointInPolygon` (geo.ts lines 119-133): even-odd ray casting; the
JS loop `for (i = 0, j = n-1; i < n; j = i++)` pairs index `i` with the
previous index (`n-1` for `i = 0`). -/
def pointInPolygon (point : LatLng) (polygon : List LatLng) : Bool :=
  (List.range polygon.length).foldl
    (fun inside i =>
      let p := polygon.getD i ⟨0, 0⟩
      let q := polygon.getD (if i = 0 then polygon.length - 1 else i - 1) ⟨0, 0⟩
      let intersects :=
        (xor (decide (point.lat < p.lat)) (decide (point.lat < q.lat))) &&
        decide (point.lng <
          (q.lng - p.lng) * (point.lat - p.lat) / (q.lat - p.lat + EPSILON) + p.lng)
      if intersects then !inside else inside)
    false

/-- Count of adjacent state changes in a list of booleans, matching the
`laidTrackTransitions` loop of geo.ts lines 165-171. -/
def countTransitions : List Bool → ℕ
  | [] => 0
  | [_] => 0
  | a :: b :: rest => (if b ≠ a then 1 else 0) + countTransitions (b :: rest)

/-- `computeTrackMetrics` (geo.ts lines 135-180).  Track points carry
optional `ts`/`speedKmh` fields in the source (`PointSample extends
LatLng`) which this function never reads, so tracks are lists of
`LatLng` here.  The JS folds `Math.min` / `Math.max` seeded with
`±Infinity` over lists that the empty-track guard has made nonempty;
they are modelled by folds seeded with the first element, which agree
on nonempty lists. -/
def computeTrackMetrics (laidTrack dogTrack cone : List LatLng) : TrackMetrics :=
  match laidTrack, dogTrack with
  | [], _ =>
    { minSeparationM := 0, avgSeparationM := 0, maxSeparationM := 0
      dogInsideConePct := 0, laidTrackTransitions := 0 }
  | _ :: _, [] =>
    { minSeparationM := 0, avgSeparationM := 0, maxSeparationM := 0
      dogInsideConePct := 0, laidTrackTransitions := 0 }
  | l0 :: ls, d0 :: ds =>
    let sep : LatLng → ℝ := fun dog =>
      (ls.map (fun laid => haversineMeters dog laid)).foldl min (haversineMeters dog l0)
    let separations := (d0 :: ds).map sep
    let minSeparationM := (ds.map sep).foldl min (sep d0)
    let maxSeparationM := (ds.map sep).foldl max (sep d0)
    let avgSeparationM := separations.foldl (· + ·) 0 / (separations.length : ℝ)
    let insideCount := ((d0 :: ds).filter (fun p => pointInPolygon p cone)).length
    let dogInsideConePct := ((insideCount : ℝ) / ((d0 :: ds).length : ℝ)) * 100
    let transitions := countTransitions ((l0 :: ls).map (fun p => pointInPolygon p cone))
    { minSeparationM := minSeparationM, avgSeparationM := avgSeparationM
      maxSeparationM := maxSeparationM, dogInsideConePct := dogInsideConePct
      laidTrackTransitions := transitions }

end Geo

namespace SE

/-- `TerrainType` (scentEnvelope.ts line 5). -/
inductive TerrainType where
  | mixed
  | «open»
  | forest
  | urban
  | swamp
  | beach
deriving DecidableEq

/-- `StabilityType` (scentEnvelope.ts line 7). -/
inductive StabilityType where
  | stable
  | neutral
  | convective
deriving DecidableEq

/-- `PrecipType` (scentEnvelope.ts line 9). -/
inductive PrecipType where
  | none
  | light
  | moderate
  | heavy
deriving DecidableEq

/-- The cloud union type of `EnvelopeInputs.cloud` (scentEnvelope.ts line 23). -/
inductive Cloud where
  | clear
  | partly
  | overcast
  | night
deriving DecidableEq

/-- `EnvelopeInputs` (scentEnvelope.ts lines 11-28), with the ISO
timestamp strings represented by their `Date.parse` values in epoch
milliseconds and the optional environment fields carrying their
defaulted values (the default-merging block of `computeScentEnvelope`,
lines 220-229, applies `?? 75`, `?? 50`, `?? "partly"`, `?? "none"`,
`?? false`, `?? "mixed"`, `?? "neutral"` before any computation). -/
structure EnvelopeInputs where
  lkp_lat : ℝ
  lkp_lon : ℝ
  lkp_time_ms : ℝ
  now_time_ms : ℝ
  wind_from_deg : ℝ
  wind_speed_mph : ℝ
  temperature_f : ℝ
  rel_humidity_pct : ℝ
  cloud : Cloud
  precip : PrecipType
  recent_rain : Bool
  terrain : TerrainType
  stability : StabilityType

/-- `LatLon` (scentEnvelope.ts line 30). -/
structure LatLon where
  lat : ℝ
  lon : ℝ
deriving DecidableEq

/-- The `confidence_band` union type (scentEnvelope.ts line 42). -/
inductive ConfidenceBand where
  | High
  | Moderate
  | Low
deriving DecidableEq

/-- The `polygons` record of `EnvelopeOutput` (scentEnvelope.ts lines 35-39). -/
structure Polygons where
  core : List LatLon
  fringe : List LatLon
  residual : List LatLon
deriving DecidableEq

/-- `EnvelopeOutput` (scentEnvelope.ts lines 32-48). `confidence_score`
is produced by `Math.round` and hence always an integer; it is typed `ℤ`. -/
structure EnvelopeOutput where
  t_minutes : ℝ
  polygons : Polygons
  confidence_score : ℤ
  confidence_band : ConfidenceBand
  recommended_start_points : List (String × LatLon)
  deployment_notes : List String
  reset_recommendation_minutes : ℝ

def R_EARTH_M : ℝ := 6371000

/-- `clamp` (scentEnvelope.ts lines 54-56). -/
def clamp (x lo hi : ℝ) : ℝ :=
  max lo (min hi x)

/-- `deg2rad` (scentEnvelope.ts line 58). -/
def deg2rad (d : ℝ) : ℝ :=
  d * Real.pi / 180

/-- `rad2deg` (scentEnvelope.ts line 61). -/
def rad2deg (r : ℝ) : ℝ :=
  r * 180 / Real.pi

/-- `destinationPoint` (scentEnvelope.ts lines 69-90).  This version
wraps the output longitude via `((deg + 540) % 360) - 180`. -/
def destinationPoint (start : LatLon) (bearingDeg distM : ℝ) : LatLon :=
  let phi1 := deg2rad start.lat
  let lam1 := deg2rad start.lon
  let th := deg2rad bearingDeg
  let del := distM / R_EARTH_M
  let sinphi1 := Real.sin phi1
  let cosphi1 := Real.cos phi1
  let sindel := Real.sin del
  let cosdel := Real.cos del
  let sinphi2 := sinphi1 * cosdel + cosphi1 * sindel * Real.cos th
  let phi2 := Real.arcsin sinphi2
  let y := Real.sin th * sindel * cosphi1
  let x := cosdel - sinphi1 * sinphi2
  let lam2 := lam1 + atan2 y x
  let lon := jsMod (rad2deg lam2 + 540) 360 - 180
  { lat := rad2deg phi2, lon := lon }

/-- `feetToMeters` (scentEnvelope.ts line 92). -/
def feetToMeters (ft : ℝ) : ℝ :=
  ft * 0.3048

/-- `minutesSince` (scentEnvelope.ts lines 96-101), on the `Date.parse`
values of the two timestamps. -/
def minutesSince (t0 t1 : ℝ) : ℝ :=
  max 0 ((t1 - t0) / (1000 * 60))

/-- `downwindBearingDeg` (scentEnvelope.ts line 103). -/
def downwindBearingDeg (wind_from_deg : ℝ) : ℝ :=
  jsMod (wind_from_deg + 180) 360

/-- `conePolygon` (scentEnvelope.ts lines 113-133): apex, then the arc
points of the loop `for i in 0..=arcPoints`, then the apex again. -/
def conePolygon (apex : LatLon) (centerlineBearingDeg L_m halfAngleDeg : ℝ)
    (arcPoints : ℕ := 32) : List LatLon :=
  let bStart := centerlineBearingDeg - halfAngleDeg
  let bEnd := centerlineBearingDeg + halfAngleDeg
  apex ::
    ((List.range (arcPoints + 1)).map (fun (i : ℕ) =>
      destinationPoint apex
        (bStart + ((i : ℝ) / (arcPoints : ℝ)) * (bEnd - bStart)) L_m)
    ++ [apex])

/-- `terrainLenMult` (scentEnvelope.ts lines 137-146). -/
def terrainLenMult (terrain : TerrainType) : ℝ :=
  match terrain with
  | TerrainType.«open» => 1.10
  | TerrainType.forest => 0.95
  | TerrainType.urban => 0.85
  | TerrainType.swamp => 0.90
  | TerrainType.beach => 1.00
  | _ => 1.00

/-- `stabilityMult` (scentEnvelope.ts lines 148-155). -/
def stabilityMult (stability : StabilityType) : ℝ :=
  match stability with
  | StabilityType.stable => 0.90
  | StabilityType.convective => 1.05
  | _ => 1.00

/-- `mixMult` (scentEnvelope.ts lines 157-163). -/
def mixMult (stability : StabilityType) (terrain : TerrainType) : ℝ :=
  let m : ℝ := 1.0
  let m := if stability = StabilityType.stable then m * 0.85 else m
  let m := if stability = StabilityType.convective then m * 1.25 else m
  let m := if terrain = TerrainType.urban then m * 1.15 else m
  m

/-- `confidenceTauMinutes` (scentEnvelope.ts lines 165-183).  The source
assigns `tau = 180`, then overwrites with 240 if the cool/humid/still
condition holds, then overwrites with 120 if the hot/dry/windy condition
holds; sequential overwriting is translated as nested conditionals with
the later assignment outermost. -/
def confidenceTauMinutes (tempF rh : ℝ) (cloud : Cloud) (windMph : ℝ) : ℝ :=
  let tau : ℝ := 180
  let tau := if (60 < rh ∨ tempF < 60) ∧
      (cloud = Cloud.overcast ∨ cloud = Cloud.night) ∧ ¬(13 ≤ windMph)
    then 240 else tau
  let tau := if (85 < tempF ∨ rh < 30 ∨ cloud = Cloud.clear) ∧ 13 ≤ windMph
    then 120 else tau
  tau

/-- The record returned by `confidenceMultipliers`. -/
structure Multipliers where
  HumMult : ℝ
  TempMult : ℝ
  SunMult : ℝ
  RainMult : ℝ
  WindMult : ℝ

/-- `confidenceMultipliers` (scentEnvelope.ts lines 185-215). -/
def confidenceMultipliers (tempF rh : ℝ) (cloud : Cloud) (precip : PrecipType)
    (recentRain : Bool) (windMph : ℝ) : Multipliers :=
  let HumMult : ℝ := if rh < 30 then 0.80 else if 60 < rh then 1.10 else 1.0
  let TempMult : ℝ := if 85 < tempF then 0.85 else if tempF < 60 then 1.05 else 1.0
  let SunMult : ℝ :=
    if cloud = Cloud.clear then 0.85
    else if cloud = Cloud.partly then 0.95
    else if cloud = Cloud.overcast ∨ cloud = Cloud.night then 1.05
    else 1.0
  let RainMult : ℝ :=
    if precip = PrecipType.heavy then 0.75
    else if precip = PrecipType.moderate ∨ precip = PrecipType.light then 0.90
    else 1.0
  let RainMult := if precip = PrecipType.none ∧ recentRain = true
    then RainMult * 0.95 else RainMult
  let WindMult : ℝ :=
    if windMph ≤ 3 then 0.85
    else if 13 ≤ windMph ∧ windMph ≤ 18 then 0.90
    else if 18 < windMph then 0.80
    else 1.0
  { HumMult := HumMult, TempMult := TempMult, SunMult := SunMult
    RainMult := RainMult, WindMult := WindMult }

/-! Named intermediate values of `computeScentEnvelope`
(scentEnvelope.ts lines 218-314), one definition per local constant of
the source body, each a function of the (default-completed) inputs. -/

/-- `t` (line 231). -/
def tOf (i : EnvelopeInputs) : ℝ :=
  minutesSince i.lkp_time_ms i.now_time_ms

/-- `W` (line 232). -/
def WOf (i : EnvelopeInputs) : ℝ :=
  max 0 i.wind_speed_mph

/-- `W_eff` (line 233). -/
def W_effOf (i : EnvelopeInputs) : ℝ :=
  min (WOf i) 18

/-- `L_ft` (lines 236-238, with `L_base_ft` and `L_wind_ft` inlined). -/
def L_ftOf (i : EnvelopeInputs) : ℝ :=
  ((30 + 6.0 * tOf i) + 120 * W_effOf i * Real.log (1 + tOf i / 30)) *
    terrainLenMult i.terrain * stabilityMult i.stability

/-- `Width_end_ft` (line 241). -/
def Width_end_ftOf (i : EnvelopeInputs) : ℝ :=
  (20 + 3.5 * tOf i + 40 * Real.sqrt (tOf i)) * mixMult i.stability i.terrain

/-- `halfAngleRad` (line 246). -/
def halfAngleRadOf (i : EnvelopeInputs) : ℝ :=
  atan2 (Width_end_ftOf i) (max 1 (L_ftOf i))

/-- `halfAngleDeg` (line 247). -/
def halfAngleDegOf (i : EnvelopeInputs) : ℝ :=
  rad2deg (halfAngleRadOf i)

/-- `apex` (line 249). -/
def apexOf (i : EnvelopeInputs) : LatLon :=
  { lat := i.lkp_lat, lon := i.lkp_lon }

/-- `axis` (line 250). -/
def axisOf (i : EnvelopeInputs) : ℝ :=
  downwindBearingDeg i.wind_from_deg

/-- `L_core_m` (line 253). -/
def L_core_mOf (i : EnvelopeInputs) : ℝ :=
  feetToMeters (0.55 * L_ftOf i)

/-- `L_fringe_m` (line 254). -/
def L_fringe_mOf (i : EnvelopeInputs) : ℝ :=
  feetToMeters (0.85 * L_ftOf i)

/-- `L_resid_m` (line 255). -/
def L_resid_mOf (i : EnvelopeInputs) : ℝ :=
  feetToMeters (1.0 * L_ftOf i)

/-- `coreAngleDeg` (line 257). -/
def coreAngleDegOf (i : EnvelopeInputs) : ℝ :=
  halfAngleDegOf i * 0.45

/-- `fringeAngleDeg` (line 258). -/
def fringeAngleDegOf (i : EnvelopeInputs) : ℝ :=
  halfAngleDegOf i * 0.80

/-- `residAngleDeg` (line 259). -/
def residAngleDegOf (i : EnvelopeInputs) : ℝ :=
  halfAngleDegOf i * 1.15

/-- `tau` (line 268). -/
def tauOf (i : EnvelopeInputs) : ℝ :=
  confidenceTauMinutes i.temperature_f i.rel_humidity_pct i.cloud (WOf i)

/-- `C_time` (line 269). -/
def C_timeOf (i : EnvelopeInputs) : ℝ :=
  100 * Real.exp (-(tOf i) / tauOf i)

/-- The destructured `confidenceMultipliers` call (lines 271-273). -/
def multsOf (i : EnvelopeInputs) : Multipliers :=
  confidenceMultipliers i.temperature_f i.rel_humidity_pct i.cloud i.precip
    i.recent_rain (WOf i)

/-- `C_env` (line 275). -/
def C_envOf (i : EnvelopeInputs) : ℝ :=
  (multsOf i).HumMult * (multsOf i).TempMult * (multsOf i).SunMult *
    (multsOf i).RainMult * (multsOf i).WindMult

/-- `C` (line 276). -/
def COf (i : EnvelopeInputs) : ℝ :=
  clamp (C_timeOf i * C_envOf i) 5 100

/-- `band` (lines 278-279): computed from the unrounded `C`. -/
def bandOf (i : EnvelopeInputs) : ConfidenceBand :=
  if 70 ≤ COf i then ConfidenceBand.High
  else if 40 ≤ COf i then ConfidenceBand.Moderate
  else ConfidenceBand.Low

/-- `startPoints` (lines 282-288). -/
def startPointsOf (i : EnvelopeInputs) : List (String × LatLon) :=
  [("LKP (Immediate)", apexOf i),
   ("Core midline (~35%)",
     destinationPoint (apexOf i) (axisOf i) (feetToMeters (0.35 * L_ftOf i))),
   ("Core far edge (~55%)",
     destinationPoint (apexOf i) (axisOf i) (feetToMeters (0.55 * L_ftOf i)))]

/-- `notes` (lines 291-300): three independently evaluated pushes. -/
def notesOf (i : EnvelopeInputs) : List String :=
  (if WOf i ≤ 3 ∨ i.terrain = TerrainType.urban ∨ i.terrain = TerrainType.forest
   then ["Pooling/eddies likely—work LKP, leeward sides, and terrain traps; expect broken scent."]
   else []) ++
  (if (4 ≤ WOf i ∧ WOf i ≤ 12) ∧ 50 ≤ COf i
   then ["Cone strategy appropriate—deploy downwind along core axis, bracket fringe edges."]
   else []) ++
  (if 13 ≤ WOf i ∨ i.precip = PrecipType.heavy
   then ["Higher dilution/variability—use shorter commitments, more frequent resets, multiple start points."]
   else [])

/-- `reset` (line 303). -/
def resetOf (i : EnvelopeInputs) : ℝ :=
  if COf i < 40 then 30 else if COf i < 70 then 45 else 60

/-- `computeScentEnvelope` (scentEnvelope.ts lines 218-314), assembled
from the named intermediate values above. -/
def computeScentEnvelope (i : EnvelopeInputs) : EnvelopeOutput :=
  { t_minutes := tOf i
    polygons :=
      { core := conePolygon (apexOf i) (axisOf i) (L_core_mOf i) (coreAngleDegOf i) 28
        fringe := conePolygon (apexOf i) (axisOf i) (L_fringe_mOf i) (fringeAngleDegOf i) 32
        residual := conePolygon (apexOf i) (axisOf i) (L_resid_mOf i) (residAngleDegOf i) 36 }
    confidence_score := jsRound (COf i)
    confidence_band := bandOf i
    recommended_start_points := startPointsOf i
    deployment_notes := notesOf i
    reset_recommendation_minutes := resetOf i }

end SE

namespace SE

/-- The sequential `tau` assignments of `confidenceTauMinutes` collapse
to a nested conditional with the later (hot/dry/windy) branch outermost. -/
lemma confidenceTauMinutes_eq (tempF rh : ℝ) (cloud : Cloud) (windMph : ℝ) :
    confidenceTauMinutes tempF rh cloud windMph =
      (if (85 < tempF ∨ rh < 30 ∨ cloud = Cloud.clear) ∧ 13 ≤ windMph then 120
       else if (60 < rh ∨ tempF < 60) ∧
           (cloud = Cloud.overcast ∨ cloud = Cloud.night) ∧ ¬(13 ≤ windMph)
         then 240 else 180) :=
  rfl

lemma confidenceTauMinutes_pos (tempF rh : ℝ) (cloud : Cloud) (windMph : ℝ) :
    0 < confidenceTauMinutes tempF rh cloud windMph := by
  rw [confidenceTauMinutes_eq]
  split_ifs <;> norm_num

lemma HumMult_eq (tempF rh : ℝ) (cloud : Cloud) (precip : PrecipType)
    (recentRain : Bool) (windMph : ℝ) :
    (confidenceMultipliers tempF rh cloud precip recentRain windMph).HumMult =
      (if rh < 30 then 0.80 else if 60 < rh then 1.10 else 1.0) :=
  rfl

lemma TempMult_eq (tempF rh : ℝ) (cloud : Cloud) (precip : PrecipType)
    (recentRain : Bool) (windMph : ℝ) :
    (confidenceMultipliers tempF rh cloud precip recentRain windMph).TempMult =
      (if 85 < tempF then 0.85 else if tempF < 60 then 1.05 else 1.0) :=
  rfl

lemma SunMult_eq (tempF rh : ℝ) (cloud : Cloud) (precip : PrecipType)
    (recentRain : Bool) (windMph : ℝ) :
    (confidenceMultipliers tempF rh cloud precip recentRain windMph).SunMult =
      (if cloud = Cloud.clear then 0.85
       else if cloud = Cloud.partly then 0.95
       else if cloud = Cloud.overcast ∨ cloud = Cloud.night then 1.05
       else 1.0) :=
  rfl

lemma RainMult_eq (tempF rh : ℝ) (cloud : Cloud) (precip : PrecipType)
    (recentRain : Bool) (windMph : ℝ) :
    (confidenceMultipliers tempF rh cloud precip recentRain windMph).RainMult =
      (if precip = PrecipType.none ∧ recentRain = true
       then (if precip = PrecipType.heavy then 0.75
             else if precip = PrecipType.moderate ∨ precip = PrecipType.light then 0.90
             else 1.0) * 0.95
       else (if precip = PrecipType.heavy then 0.75
             else if precip = PrecipType.moderate ∨ precip = PrecipType.light then 0.90
             else 1.0)) :=
  rfl

lemma WindMult_eq (tempF rh : ℝ) (cloud : Cloud) (precip : PrecipType)
    (recentRain : Bool) (windMph : ℝ) :
    (confidenceMultipliers tempF rh cloud precip recentRain windMph).WindMult =
      (if windMph ≤ 3 then 0.85
       else if 13 ≤ windMph ∧ windMph ≤ 18 then 0.90
       else if 18 < windMph then 0.80
       else 1.0) :=
  rfl

/-- Every environmental multiplier is positive, hence so is `C_env`. -/
lemma C_env_pos (i : EnvelopeInputs) : 0 < C_envOf i := by
  unfold C_envOf multsOf
  rw [HumMult_eq, TempMult_eq, SunMult_eq, RainMult_eq, WindMult_eq]
  have h1 : (0:ℝ) < if i.rel_humidity_pct < 30 then 0.80
      else if 60 < i.rel_humidity_pct then 1.10 else 1.0 := by
    split_ifs <;> norm_num
  have h2 : (0:ℝ) < if 85 < i.temperature_f then 0.85
      else if i.temperature_f < 60 then 1.05 else 1.0 := by
    split_ifs <;> norm_num
  have h3 : (0:ℝ) < if i.cloud = Cloud.clear then 0.85
      else if i.cloud = Cloud.partly then 0.95
      else if i.cloud = Cloud.overcast ∨ i.cloud = Cloud.night then 1.05
      else 1.0 := by
    split_ifs <;> norm_num
  have h4 : (0:ℝ) < if i.precip = PrecipType.none ∧ i.recent_rain = true
      then (if i.precip = PrecipType.heavy then 0.75
            else if i.precip = PrecipType.moderate ∨ i.precip = PrecipType.light then 0.90
            else 1.0) * 0.95
      else (if i.precip = PrecipType.heavy then 0.75
            else if i.precip = PrecipType.moderate ∨ i.precip = PrecipType.light then 0.90
            else 1.0) := by
    split_ifs <;> norm_num
  have h5 : (0:ℝ) < if WOf i ≤ 3 then 0.85
      else if 13 ≤ WOf i ∧ WOf i ≤ 18 then 0.90
      else if 18 < WOf i then 0.80
      else 1.0 := by
    split_ifs <;> norm_num
  positivity

/-- The clamped confidence is bracketed by the clamp bounds. -/
lemma COf_bounds (i : EnvelopeInputs) : 5 ≤ COf i ∧ COf i ≤ 100 := by
  unfold COf clamp
  exact ⟨le_max_left _ _, max_le (by norm_num) (min_le_left _ _)⟩

end SE

/-- C5: `confidenceTauMinutes` returns 240 when the cool/humid/still
condition holds, 120 when the hot/dry/windy condition holds (and, the
later assignment in the source, it would win on overlap), and 180
otherwise; moreover the two conditions can never hold simultaneously
(one requires wind < 13 mph, the other wind ≥ 13 mph), so the recorded
override order is vacuous. -/
theorem c5_tau_rules (tempF rh : ℝ) (cloud : SE.Cloud) (windMph : ℝ) :
    SE.confidenceTauMinutes tempF rh cloud windMph =
      (if (85 < tempF ∨ rh < 30 ∨ cloud = SE.Cloud.clear) ∧ 13 ≤ windMph then 120
       else if (60 < rh ∨ tempF < 60) ∧
           (cloud = SE.Cloud.overcast ∨ cloud = SE.Cloud.night) ∧ ¬(13 ≤ windMph)
         then 240 else 180) ∧
    ¬(((60 < rh ∨ tempF < 60) ∧
        (cloud = SE.Cloud.overcast ∨ cloud = SE.Cloud.night) ∧ ¬(13 ≤ windMph)) ∧
      ((85 < tempF ∨ rh < 30 ∨ cloud = SE.Cloud.clear) ∧ 13 ≤ windMph)) := by
  refine ⟨SE.confidenceTauMinutes_eq tempF rh cloud windMph, ?_⟩
  rintro ⟨⟨-, -, hnw⟩, ⟨-, hw⟩⟩
  exact hnw hw

/-- C6: `estimateScentDistanceMeters` is
`max (20, windSpeedKmh * 1000 * (minutes/60) * 0.28 * stabilityFactor)`
with stability factors 1.25 / 1.0 / 0.75 for low / medium / high, and
at `(0, 30, medium)` it returns exactly the 20 m floor. -/
theorem c6_estimate_distance :
    (∀ (windSpeedKmh minutes : ℝ) (stability : Geo.Stability),
      Geo.estimateScentDistanceMeters windSpeedKmh minutes stability =
        max 20 (windSpeedKmh * 1000 * (minutes / 60) * 0.28 *
          Geo.stabilityFactor stability)) ∧
    Geo.stabilityFactor Geo.Stability.low = 1.25 ∧
    Geo.stabilityFactor Geo.Stability.medium = 1 ∧
    Geo.stabilityFactor Geo.Stability.high = 0.75 ∧
    Geo.estimateScentDistanceMeters 0 30 Geo.Stability.medium = 20 := by
  refine ⟨fun w m s => rfl, rfl, rfl, rfl, ?_⟩
  unfold Geo.estimateScentDistanceMeters Geo.stabilityFactor
  norm_num

/-- C7: `buildConePolygon` returns a ring of exactly 25 points; the
first and last are the source apex, and for each `k < 23` the point at
index `k + 1` is the destination point at radius
`max (250, windSpeedKmh * 1000 * timeHorizonHours * 0.28)` meters along
the bearing `windTo - halfSpread + (k/22) * halfSpread * 2`, which
sweeps from `windTo - halfSpread` to `windTo + halfSpread` inclusive. -/
theorem c7_cone_ring (lkp : Geo.LatLng) (windFromDeg windSpeedKmh : ℝ)
    (settings : Geo.ConeSettings) :
    (Geo.buildConePolygon lkp windFromDeg windSpeedKmh settings).length = 25 ∧
    (Geo.buildConePolygon lkp windFromDeg windSpeedKmh settings).head? = some lkp ∧
    (Geo.buildConePolygon lkp windFromDeg windSpeedKmh settings).getLast? = some lkp ∧
    ∀ k : Fin 23,
      (Geo.buildConePolygon lkp windFromDeg windSpeedKmh settings)[(k : ℕ) + 1]? =
        some (Geo.destinationPoint lkp
          (Geo.windFromToDeg windFromDeg - Geo.spreadHalfDeg settings +
            (((k : ℕ) : ℝ) / 22) * Geo.spreadHalfDeg settings * 2)
          (max 250 (windSpeedKmh * 1000 * settings.timeHorizonHours * 0.28))) := by
  have hb : Geo.buildConePolygon lkp windFromDeg windSpeedKmh settings =
      lkp :: ((List.range 23).map (fun (i : ℕ) =>
        Geo.destinationPoint lkp
          (Geo.windFromToDeg windFromDeg - Geo.spreadHalfDeg settings +
            ((i : ℝ) / 22) * Geo.spreadHalfDeg settings * 2)
          (max 250 (windSpeedKmh * 1000 * settings.timeHorizonHours * 0.28)))
      ++ [lkp]) := by
    norm_num [Geo.buildConePolygon]
  refine ⟨?_, ?_, ?_, ?_⟩
  · rw [hb]
    simp
  · rw [hb]
    rfl
  · rw [hb, ← List.cons_append, List.getLast?_concat]
  · intro k
    rw [hb, List.getElem?_cons_succ, List.getElem?_append_left
      (by simp [k.isLt]), List.getElem?_map, List.getElem?_range k.isLt]
    rfl

/-- C8: `computeTrackMetrics` with an empty laid track or an empty dog
track returns the all-zero metrics record, regardless of the other
arguments. -/
theorem c8_empty_tracks (laidTrack dogTrack cone : List Geo.LatLng)
    (h : laidTrack = [] ∨ dogTrack = []) :
    Geo.computeTrackMetrics laidTrack dogTrack cone =
      { minSeparationM := 0, avgSeparationM := 0, maxSeparationM := 0
        dogInsideConePct := 0, laidTrackTransitions := 0 } := by
  rcases h with h | h
  · subst h
    rfl
  · subst h
    cases laidTrack with
    | nil => rfl
    | cons a l => rfl

/-- Witness for C8 at a concrete input. -/
theorem c8_witness :
    Geo.computeTrackMetrics [] [⟨1, 2⟩] [⟨0, 0⟩, ⟨0, 1⟩, ⟨1, 0⟩] =
      { minSeparationM := 0, avgSeparationM := 0, maxSeparationM := 0
        dogInsideConePct := 0, laidTrackTransitions := 0 } :=
  c8_empty_tracks [] [⟨1, 2⟩] [⟨0, 0⟩, ⟨0, 1⟩, ⟨1, 0⟩] (Or.inl rfl)

/-- C3: the output `confidence_score` always lies between 5 and 100.
It is an integer by construction: the source applies `Math.round`,
which the embedding types as `ℤ` (see `jsRound`). -/
theorem c3_confidence_bounds (i : SE.EnvelopeInputs) :
    5 ≤ (SE.computeScentEnvelope i).confidence_score ∧
    (SE.computeScentEnvelope i).confidence_score ≤ 100 := by
  obtain ⟨h5, h100⟩ := SE.COf_bounds i
  constructor
  · show (5 : ℤ) ≤ jsRound (SE.COf i)
    unfold jsRound
    rw [Int.le_floor]
    push_cast
    linarith
  · show jsRound (SE.COf i) ≤ 100
    unfold jsRound
    have : ⌊SE.COf i + 1 / 2⌋ < 101 := by
      rw [Int.floor_lt]
      push_cast
      linarith
    omega

namespace SE

lemma tOf_nonneg (i : EnvelopeInputs) : 0 ≤ tOf i :=
  le_max_left 0 _

lemma L_ftOf_nonneg (i : EnvelopeInputs) : 0 ≤ L_ftOf i := by
  unfold L_ftOf
  have ht := tOf_nonneg i
  have hW : 0 ≤ W_effOf i := by
    unfold W_effOf WOf
    exact le_min (le_max_left 0 _) (by norm_num)
  have hlog : 0 ≤ Real.log (1 + tOf i / 30) :=
    Real.log_nonneg (by linarith)
  have hterr : 0 ≤ terrainLenMult i.terrain := by
    unfold terrainLenMult
    cases i.terrain <;> norm_num
  have hstab : 0 ≤ stabilityMult i.stability := by
    unfold stabilityMult
    cases i.stability <;> norm_num
  have hinner : 0 ≤ (30 + 6.0 * tOf i) + 120 * W_effOf i * Real.log (1 + tOf i / 30) := by
    positivity
  positivity

lemma halfAngleDegOf_nonneg (i : EnvelopeInputs) : 0 ≤ halfAngleDegOf i := by
  unfold halfAngleDegOf halfAngleRadOf rad2deg
  have hx : (0 : ℝ) < max 1 (L_ftOf i) := lt_of_lt_of_le one_pos (le_max_left 1 _)
  have hy : 0 ≤ Width_end_ftOf i := by
    unfold Width_end_ftOf
    have ht := tOf_nonneg i
    have hsq := Real.sqrt_nonneg (tOf i)
    have hmix : 0 ≤ mixMult i.stability i.terrain := by
      unfold mixMult
      split_ifs <;> norm_num
    positivity
  have hatan : 0 ≤ atan2 (Width_end_ftOf i) (max 1 (L_ftOf i)) := by
    unfold atan2
    rw [if_pos hx]
    have h0 : (0 : ℝ) ≤ Width_end_ftOf i / max 1 (L_ftOf i) := div_nonneg hy hx.le
    calc (0 : ℝ) = Real.arctan 0 := Real.arctan_zero.symm
      _ ≤ Real.arctan (Width_end_ftOf i / max 1 (L_ftOf i)) :=
          Real.arctan_strictMono.monotone h0
  have hpi := Real.pi_pos
  positivity

end SE

/-- C9: the three zones of `computeScentEnvelope` are built from these
radii and half-angles, and they are nested: core far radius ≤ fringe's
≤ residual's (0.55, 0.85, 1.00 of `L_ft`, in meters) and core
half-angle ≤ fringe's ≤ residual's (0.45, 0.80, 1.15 of the computed
half-angle). -/
theorem c9_zone_nesting (i : SE.EnvelopeInputs) :
    (SE.computeScentEnvelope i).polygons =
      { core := SE.conePolygon (SE.apexOf i) (SE.axisOf i)
          (SE.L_core_mOf i) (SE.coreAngleDegOf i) 28
        fringe := SE.conePolygon (SE.apexOf i) (SE.axisOf i)
          (SE.L_fringe_mOf i) (SE.fringeAngleDegOf i) 32
        residual := SE.conePolygon (SE.apexOf i) (SE.axisOf i)
          (SE.L_resid_mOf i) (SE.residAngleDegOf i) 36 } ∧
    SE.L_core_mOf i ≤ SE.L_fringe_mOf i ∧
    SE.L_fringe_mOf i ≤ SE.L_resid_mOf i ∧
    SE.coreAngleDegOf i ≤ SE.fringeAngleDegOf i ∧
    SE.fringeAngleDegOf i ≤ SE.residAngleDegOf i := by
  have hL := SE.L_ftOf_nonneg i
  have hA := SE.halfAngleDegOf_nonneg i
  refine ⟨rfl, ?_, ?_, ?_, ?_⟩
  · unfold SE.L_core_mOf SE.L_fringe_mOf SE.feetToMeters
    nlinarith
  · unfold SE.L_fringe_mOf SE.L_resid_mOf SE.feetToMeters
    nlinarith
  · unfold SE.coreAngleDegOf SE.fringeAngleDegOf
    nlinarith
  · unfold SE.fringeAngleDegOf SE.residAngleDegOf
    nlinarith

/-- C4: with the environment fixed (all fields except the two
timestamps), the output `confidence_score` is non-increasing in the
elapsed minutes `t` computed by `minutesSince`. -/
theorem c4_confidence_monotone (i : SE.EnvelopeInputs) (l1 n1 l2 n2 : ℝ)
    (h : SE.minutesSince l1 n1 ≤ SE.minutesSince l2 n2) :
    (SE.computeScentEnvelope
        { i with lkp_time_ms := l2, now_time_ms := n2 }).confidence_score ≤
    (SE.computeScentEnvelope
        { i with lkp_time_ms := l1, now_time_ms := n1 }).confidence_score := by
  set i1 : SE.EnvelopeInputs := { i with lkp_time_ms := l1, now_time_ms := n1 } with hi1
  set i2 : SE.EnvelopeInputs := { i with lkp_time_ms := l2, now_time_ms := n2 } with hi2
  have htau : SE.tauOf i2 = SE.tauOf i1 := rfl
  have henv : SE.C_envOf i2 = SE.C_envOf i1 := rfl
  have ht : SE.tOf i1 ≤ SE.tOf i2 := h
  have htaupos : 0 < SE.tauOf i1 :=
    SE.confidenceTauMinutes_pos i.temperature_f i.rel_humidity_pct i.cloud (SE.WOf i1)
  have henvpos : 0 < SE.C_envOf i1 := SE.C_env_pos i1
  have hC : SE.COf i2 ≤ SE.COf i1 := by
    have htime : SE.C_timeOf i2 ≤ SE.C_timeOf i1 := by
      unfold SE.C_timeOf
      rw [htau]
      have hdiv : SE.tOf i1 / SE.tauOf i1 ≤ SE.tOf i2 / SE.tauOf i1 :=
        (div_le_div_iff_of_pos_right htaupos).mpr ht
      have hexp : Real.exp (-(SE.tOf i2) / SE.tauOf i1) ≤
          Real.exp (-(SE.tOf i1) / SE.tauOf i1) := by
        apply Real.exp_le_exp.mpr
        rw [neg_div, neg_div]
        linarith
      linarith
    have hmul : SE.C_timeOf i2 * SE.C_envOf i2 ≤ SE.C_timeOf i1 * SE.C_envOf i1 := by
      rw [henv]
      exact mul_le_mul_of_nonneg_right htime henvpos.le
    unfold SE.COf SE.clamp
    exact max_le_max (le_refl 5) (min_le_min (le_refl 100) hmul)
  show jsRound (SE.COf i2) ≤ jsRound (SE.COf i1)
  unfold jsRound
  exact Int.floor_le_floor (by linarith)

/-- A concrete environment used by the witnesses below. -/
def exEnv : SE.EnvelopeInputs :=
  { lkp_lat := 39.5, lkp_lon := -104.99, lkp_time_ms := 0, now_time_ms := 0
    wind_from_deg := 270, wind_speed_mph := 5, temperature_f := 75
    rel_humidity_pct := 50, cloud := SE.Cloud.partly, precip := SE.PrecipType.none
    recent_rain := false, terrain := SE.TerrainType.mixed
    stability := SE.StabilityType.neutral }

/-- Witness for C4 at a concrete pair of elapsed times (1 min ≤ 2 min). -/
theorem c4_witness :
    (SE.computeScentEnvelope
        { exEnv with lkp_time_ms := 0, now_time_ms := 120000 }).confidence_score ≤
    (SE.computeScentEnvelope
        { exEnv with lkp_time_ms := 0, now_time_ms := 60000 }).confidence_score :=
  c4_confidence_monotone exEnv 0 60000 0 120000 (by
    unfold SE.minutesSince
    norm_num)

/-- C10: a negative `wind_speed_mph` is clamped to 0 by
`W = max(0, wind_speed_mph)` before any use, so the output equals that
of the identical inputs with `wind_speed_mph = 0`. -/
theorem c10_negative_wind (i : SE.EnvelopeInputs) (h : i.wind_speed_mph < 0) :
    SE.computeScentEnvelope i =
      SE.computeScentEnvelope { i with wind_speed_mph := 0 } := by
  have h0 : max (0 : ℝ) i.wind_speed_mph = 0 := max_eq_left h.le
  simp only [SE.computeScentEnvelope, SE.tOf, SE.WOf, SE.W_effOf, SE.L_ftOf,
    SE.Width_end_ftOf, SE.halfAngleRadOf, SE.halfAngleDegOf, SE.apexOf,
    SE.axisOf, SE.L_core_mOf, SE.L_fringe_mOf, SE.L_resid_mOf,
    SE.coreAngleDegOf, SE.fringeAngleDegOf, SE.residAngleDegOf, SE.tauOf,
    SE.C_timeOf, SE.multsOf, SE.C_envOf, SE.COf, SE.bandOf, SE.startPointsOf,
    SE.notesOf, SE.resetOf, h0, max_self]

/-- Witness for C10 at a concrete input with wind −5 mph. -/
theorem c10_witness :
    SE.computeScentEnvelope { exEnv with wind_speed_mph := -5 } =
      SE.computeScentEnvelope
        { { exEnv with wind_speed_mph := -5 } with wind_speed_mph := 0 } :=
  c10_negative_wind { exEnv with wind_speed_mph := -5 } (by norm_num)

namespace SE

/-- At zero elapsed time the time-decay factor is 1, so the clamped
confidence is the clamp of `100 * C_env`. -/
lemma COf_of_t_eq_zero (i : EnvelopeInputs) (h : tOf i = 0) :
    COf i = clamp (100 * C_envOf i) 5 100 := by
  unfold COf C_timeOf
  rw [h]
  norm_num

end SE

/-- The C1 counterexample input: zero elapsed time, wind 2 mph,
70 % humidity, 50 °F, partly cloudy, heavy precipitation.  Its
environmental multiplier product is
`1.10 * 1.05 * 0.95 * 0.75 * 0.85 = 0.699496875`, so the unrounded
confidence is 69.9496875: the rounded score is 70 but the band,
computed from the unrounded value, is "Moderate". -/
def exC1 : SE.EnvelopeInputs :=
  { lkp_lat := 39.5, lkp_lon := -104.99, lkp_time_ms := 0, now_time_ms := 0
    wind_from_deg := 270, wind_speed_mph := 2, temperature_f := 50
    rel_humidity_pct := 70, cloud := SE.Cloud.partly, precip := SE.PrecipType.heavy
    recent_rain := false, terrain := SE.TerrainType.mixed
    stability := SE.StabilityType.neutral }

lemma exC1_t : SE.tOf exC1 = 0 := by
  unfold SE.tOf SE.minutesSince exC1
  norm_num

lemma exC1_env : SE.C_envOf exC1 = 0.699496875 := by
  have hW : SE.WOf exC1 = 2 := by
    unfold SE.WOf exC1
    norm_num
  have hm : SE.multsOf exC1 =
      SE.confidenceMultipliers 50 70 SE.Cloud.partly SE.PrecipType.heavy false 2 := by
    unfold SE.multsOf
    rw [hW]
    rfl
  have m1 : (SE.multsOf exC1).HumMult = 1.10 := by
    rw [hm, SE.HumMult_eq]
    norm_num
  have m2 : (SE.multsOf exC1).TempMult = 1.05 := by
    rw [hm, SE.TempMult_eq]
    norm_num
  have m3 : (SE.multsOf exC1).SunMult = 0.95 := by
    rw [hm, SE.SunMult_eq, if_neg (by decide), if_pos rfl]
  have m4 : (SE.multsOf exC1).RainMult = 0.75 := by
    rw [hm, SE.RainMult_eq, if_neg (by decide), if_pos rfl]
  have m5 : (SE.multsOf exC1).WindMult = 0.85 := by
    rw [hm, SE.WindMult_eq, if_pos (by norm_num)]
  unfold SE.C_envOf
  rw [m1, m2, m3, m4, m5]
  norm_num

lemma exC1_C : SE.COf exC1 = 69.9496875 := by
  rw [SE.COf_of_t_eq_zero exC1 exC1_t, exC1_env]
  unfold SE.clamp
  rw [min_eq_right (by norm_num), max_eq_right (by norm_num)]
  norm_num

/-- C1 counterexample: on `exC1` the output `confidence_score` is
exactly 70 while the output band is "Moderate", because the band is
computed from the unrounded confidence 69.9496875 < 70, refuting
"a confidence score of exactly 70 yields band High". -/
theorem c1_counterexample :
    (SE.computeScentEnvelope exC1).confidence_score = 70 ∧
    (SE.computeScentEnvelope exC1).confidence_band = SE.ConfidenceBand.Moderate := by
  constructor
  · show jsRound (SE.COf exC1) = 70
    rw [exC1_C]
    unfold jsRound
    rw [Int.floor_eq_iff]
    constructor <;> norm_num
  · show SE.bandOf exC1 = SE.ConfidenceBand.Moderate
    unfold SE.bandOf
    rw [exC1_C, if_neg (by norm_num), if_pos (by norm_num)]

/-- C1 (amended): the band is determined by the unrounded clamped
confidence `C` via the thresholds C ≥ 70 → High, C ≥ 40 → Moderate,
else Low — not by the rounded output `confidence_score` (a score of 70
or 40 can accompany the lower band when rounding crossed the threshold
upward).  Away from the upward-rounding boundaries the claimed instances
do hold: a score of exactly 69 always yields "Moderate" and a score of
exactly 39 always yields "Low". -/
theorem c1_amended_band_thresholds (i : SE.EnvelopeInputs) :
    (SE.computeScentEnvelope i).confidence_band =
      (if 70 ≤ SE.COf i then SE.ConfidenceBand.High
       else if 40 ≤ SE.COf i then SE.ConfidenceBand.Moderate
       else SE.ConfidenceBand.Low) ∧
    ((SE.computeScentEnvelope i).confidence_score = 69 →
      (SE.computeScentEnvelope i).confidence_band = SE.ConfidenceBand.Moderate) ∧
    ((SE.computeScentEnvelope i).confidence_score = 39 →
      (SE.computeScentEnvelope i).confidence_band = SE.ConfidenceBand.Low) := by
  refine ⟨rfl, ?_, ?_⟩
  · intro h
    have hfl : ⌊SE.COf i + 1 / 2⌋ = 69 := h
    rw [Int.floor_eq_iff] at hfl
    push_cast at hfl
    show SE.bandOf i = SE.ConfidenceBand.Moderate
    unfold SE.bandOf
    rw [if_neg (by linarith [hfl.2]), if_pos (by linarith [hfl.1])]
  · intro h
    have hfl : ⌊SE.COf i + 1 / 2⌋ = 39 := h
    rw [Int.floor_eq_iff] at hfl
    push_cast at hfl
    show SE.bandOf i = SE.ConfidenceBand.Low
    unfold SE.bandOf
    rw [if_neg (by linarith [hfl.2]), if_neg (by linarith [hfl.2])]

/-- The witness input for the amended C1: same as `exC1` but hot and dry
(90 °F, 50 % humidity, no precipitation), giving multiplier product
`0.85 * 0.95 * 0.85 = 0.686375`, confidence 68.6375 and score 69. -/
def exC1b : SE.EnvelopeInputs :=
  { exC1 with
    temperature_f := 90
    rel_humidity_pct := 50
    precip := SE.PrecipType.none }

lemma exC1b_t : SE.tOf exC1b = 0 := by
  unfold SE.tOf SE.minutesSince exC1b exC1
  norm_num

lemma exC1b_env : SE.C_envOf exC1b = 0.686375 := by
  have hW : SE.WOf exC1b = 2 := by
    unfold SE.WOf exC1b exC1
    norm_num
  have hm : SE.multsOf exC1b =
      SE.confidenceMultipliers 90 50 SE.Cloud.partly SE.PrecipType.none false 2 := by
    unfold SE.multsOf
    rw [hW]
    rfl
  have m1 : (SE.multsOf exC1b).HumMult = 1.0 := by
    rw [hm, SE.HumMult_eq]
    norm_num
  have m2 : (SE.multsOf exC1b).TempMult = 0.85 := by
    rw [hm, SE.TempMult_eq]
    norm_num
  have m3 : (SE.multsOf exC1b).SunMult = 0.95 := by
    rw [hm, SE.SunMult_eq, if_neg (by decide), if_pos rfl]
  have m4 : (SE.multsOf exC1b).RainMult = 1.0 := by
    rw [hm, SE.RainMult_eq, if_neg (by decide), if_neg (by decide),
      if_neg (by decide)]
  have m5 : (SE.multsOf exC1b).WindMult = 0.85 := by
    rw [hm, SE.WindMult_eq, if_pos (by norm_num)]
  unfold SE.C_envOf
  rw [m1, m2, m3, m4, m5]
  norm_num

lemma exC1b_score : (SE.computeScentEnvelope exC1b).confidence_score = 69 := by
  have hC : SE.COf exC1b = 68.6375 := by
    rw [SE.COf_of_t_eq_zero exC1b exC1b_t, exC1b_env]
    unfold SE.clamp
    rw [min_eq_right (by norm_num), max_eq_right (by norm_num)]
    norm_num
  show jsRound (SE.COf exC1b) = 69
  rw [hC]
  unfold jsRound
  rw [Int.floor_eq_iff]
  constructor <;> norm_num

/-- Witness for the amended C1: a concrete input whose score is exactly
69 indeed gets band "Moderate". -/
theorem c1_witness :
    (SE.computeScentEnvelope exC1b).confidence_band = SE.ConfidenceBand.Moderate :=
  (c1_amended_band_thresholds exC1b).2.1 exC1b_score

/-- C2 counterexample: from origin (0° N, 179° E), bearing 90° (due
east), distance `R * π/4` (one eighth of the Earth's circumference,
about 5003 km), the Geodesy Kernel's `destinationPoint` returns
longitude 179 + 45 = 224, outside (-180, 180]: geo.ts performs no
longitude normalization. -/
theorem c2_counterexample :
    180 < (Geo.destinationPoint ⟨0, 179⟩ 90 (6371000 * (Real.pi / 4))).lng := by
  have e1 : Geo.toRad 90 = Real.pi / 2 := by
    unfold Geo.toRad
    ring
  have e2 : Geo.toRad 0 = 0 := by
    unfold Geo.toRad
    ring
  have e3 : 6371000 * (Real.pi / 4) / Geo.EARTH_RADIUS_M = Real.pi / 4 := by
    unfold Geo.EARTH_RADIUS_M
    exact mul_div_cancel_left₀ _ (by norm_num)
  have hlng : (Geo.destinationPoint ⟨0, 179⟩ 90 (6371000 * (Real.pi / 4))).lng =
      Geo.toDeg (Geo.toRad 179 + atan2 (Real.sqrt 2 / 2) (Real.sqrt 2 / 2)) := by
    show Geo.toDeg (Geo.toRad 179 + atan2
        (Real.sin (Geo.toRad 90) * Real.sin (6371000 * (Real.pi / 4) / Geo.EARTH_RADIUS_M) *
          Real.cos (Geo.toRad 0))
        (Real.cos (6371000 * (Real.pi / 4) / Geo.EARTH_RADIUS_M) -
          Real.sin (Geo.toRad 0) *
            Real.sin (Real.arcsin
              (Real.sin (Geo.toRad 0) * Real.cos (6371000 * (Real.pi / 4) / Geo.EARTH_RADIUS_M) +
                Real.cos (Geo.toRad 0) * Real.sin (6371000 * (Real.pi / 4) / Geo.EARTH_RADIUS_M) *
                  Real.cos (Geo.toRad 90))))) = _
    rw [e1, e2, e3]
    rw [Real.sin_pi_div_two, Real.sin_zero, Real.sin_pi_div_four, Real.cos_pi_div_four,
      Real.cos_zero]
    norm_num
  rw [hlng]
  have hpos : (0 : ℝ) < Real.sqrt 2 / 2 := by positivity
  have hatan : atan2 (Real.sqrt 2 / 2) (Real.sqrt 2 / 2) = Real.pi / 4 := by
    unfold atan2
    rw [if_pos hpos, div_self hpos.ne', Real.arctan_one]
  rw [hatan]
  unfold Geo.toDeg Geo.toRad
  have hpi := Real.pi_pos
  rw [show (179 * Real.pi / 180 + Real.pi / 4) * 180 / Real.pi = 224 by
    field_simp
    ring]
  norm_num

/-- `Math.atan2` always returns a value in (-π, π]. -/
lemma atan2_bounds (y x : ℝ) : -Real.pi < atan2 y x ∧ atan2 y x ≤ Real.pi := by
  have hpi := Real.pi_pos
  unfold atan2
  split_ifs with h1 h2 h3 h4 h5
  · exact ⟨by linarith [Real.neg_pi_div_two_lt_arctan (y / x)],
      by linarith [Real.arctan_lt_pi_div_two (y / x)]⟩
  · have hyx : y / x ≤ 0 := div_nonpos_iff.mpr (Or.inl ⟨h3, h2.le⟩)
    have hle : Real.arctan (y / x) ≤ 0 := by
      calc Real.arctan (y / x) ≤ Real.arctan 0 := Real.arctan_strictMono.monotone hyx
        _ = 0 := Real.arctan_zero
    exact ⟨by linarith [Real.neg_pi_div_two_lt_arctan (y / x)], by linarith⟩
  · have hyx : 0 < y / x := div_pos_iff.mpr (Or.inr ⟨lt_of_not_le h3, h2⟩)
    have hgt : 0 < Real.arctan (y / x) := by
      calc (0 : ℝ) = Real.arctan 0 := Real.arctan_zero.symm
        _ < Real.arctan (y / x) := Real.arctan_strictMono hyx
    exact ⟨by linarith, by linarith [Real.arctan_lt_pi_div_two (y / x)]⟩
  · exact ⟨by linarith, by linarith⟩
  · exact ⟨by linarith, by linarith⟩
  · exact ⟨by linarith, by linarith⟩

/-- The JS `%` on a nonnegative dividend and modulus 360 lands in [0, 360). -/
lemma jsMod_bounds (a : ℝ) (ha : 0 ≤ a) : 0 ≤ jsMod a 360 ∧ jsMod a 360 < 360 := by
  unfold jsMod jsTrunc
  rw [if_pos (div_nonneg ha (by norm_num))]
  have key : a - 360 * (⌊a / 360⌋ : ℝ) = 360 * Int.fract (a / 360) := by
    rw [← Int.self_sub_floor]
    field_simp
  rw [key]
  have hf1 := Int.fract_nonneg (a / 360)
  have hf2 := Int.fract_lt_one (a / 360)
  constructor <;> nlinarith

namespace SE

/-- For an intermediate longitude in radians in (-2π, 2π], the wrapping
`((deg + 540) % 360) - 180` lands in [-180, 180). -/
lemma lon_wrap_bounds (lam2 : ℝ) (hl : -(2 * Real.pi) < lam2)
    (hr : lam2 ≤ 2 * Real.pi) :
    -180 ≤ jsMod (rad2deg lam2 + 540) 360 - 180 ∧
    jsMod (rad2deg lam2 + 540) 360 - 180 < 180 := by
  have hpi := Real.pi_pos
  have hd1 : -360 < rad2deg lam2 := by
    unfold rad2deg
    rw [lt_div_iff₀ hpi]
    nlinarith
  have hd2 : rad2deg lam2 ≤ 360 := by
    unfold rad2deg
    rw [div_le_iff₀ hpi]
    nlinarith
  obtain ⟨hm1, hm2⟩ := jsMod_bounds (rad2deg lam2 + 540) (by linarith)
  constructor <;> linarith

/-- A longitude within ±180 degrees maps into ±π radians. -/
lemma deg2rad_bounds (lon : ℝ) (h1 : -180 ≤ lon) (h2 : lon ≤ 180) :
    -Real.pi ≤ deg2rad lon ∧ deg2rad lon ≤ Real.pi := by
  have hpi := Real.pi_pos
  unfold deg2rad
  constructor
  · rw [le_div_iff₀ (by norm_num : (0:ℝ) < 180)]
    nlinarith
  · rw [div_le_iff₀ (by norm_num : (0:ℝ) < 180)]
    nlinarith

end SE

/-- C2 (amended): the Envelope model's `destinationPoint` normalizes
the output longitude into [-180, 180) for any origin whose longitude
lies within [-180, 180]; the Geodesy Kernel's (geo.ts) version performs
no normalization at all (see the counterexample). -/
theorem c2_amended_lon_wrap (start : SE.LatLon) (bearingDeg distM : ℝ)
    (h1 : -180 ≤ start.lon) (h2 : start.lon ≤ 180) :
    -180 ≤ (SE.destinationPoint start bearingDeg distM).lon ∧
    (SE.destinationPoint start bearingDeg distM).lon < 180 := by
  obtain ⟨hl1, hl2⟩ := SE.deg2rad_bounds start.lon h1 h2
  obtain ⟨hA1, hA2⟩ := atan2_bounds
    (Real.sin (SE.deg2rad bearingDeg) * Real.sin (distM / SE.R_EARTH_M) *
      Real.cos (SE.deg2rad start.lat))
    (Real.cos (distM / SE.R_EARTH_M) -
      Real.sin (SE.deg2rad start.lat) *
        (Real.sin (SE.deg2rad start.lat) * Real.cos (distM / SE.R_EARTH_M) +
          Real.cos (SE.deg2rad start.lat) * Real.sin (distM / SE.R_EARTH_M) *
            Real.cos (SE.deg2rad bearingDeg)))
  exact SE.lon_wrap_bounds _ (by linarith) (by linarith)

/-- Witness for the amended C2 at origin (0, 0), bearing 0, distance 0. -/
theorem c2_witness :
    -180 ≤ (SE.destinationPoint ⟨0, 0⟩ 0 0).lon ∧
    (SE.destinationPoint ⟨0, 0⟩ 0 0).lon < 180 :=
  c2_amended_lon_wrap ⟨0, 0⟩ 0 0 (by norm_num) (by norm_num)
